import Mathlib

/-!
Verification of the `johndeere` fields mixin (`src/johndeere/mixins/fields.py`)
against its natural-language specification.

The module is a thin HTTP client mixin: `FieldsMixin.get_fields` and
`FieldsMixin.get_field` build resource URLs with the yarl URL builder and
delegate the GET request to an injected HTTP client (`self.private`).  We
embed the URL-building, validation and request/response flow shallowly:

* yarl URLs become `Url` (ordered path segments plus ordered query pairs),
  with `Url.div` for yarl's `/` path append and `Url.mod` for yarl's `%`
  query merge;
* the Python `int | str` argument type becomes `PyVal`, with `pyStr`
  embedding Python's `str()` coercion;
* Python exceptions become the `PyError` sum; fallible flow returns
  `Except PyError`;
* the injected HTTP client collaborator becomes a function
  `Url → Except PyError HttpResponse`; each embedded operation returns the
  call's outcome together with the list of outbound GET requests it issued,
  so that request-counting and no-request-on-error properties are statable.
-/

namespace JohnDeere

/-- A yarl URL as used by the source: an ordered list of path segments plus
an ordered query string of key/value pairs. -/
structure Url where
  segments : List String
  query : List (String × String)
deriving Repr, DecidableEq

/-- yarl's `/` operator: append one path segment. -/
def Url.div (u : Url) (s : String) : Url :=
  ⟨u.segments ++ [s], u.query⟩

/-- yarl's `%` operator with a single-key mapping (`url % dict(k=v)`,
i.e. `update_query`): if the key is already present its value is replaced in
place, otherwise the new pair is appended at the end of the query. -/
def Url.mod (u : Url) (k v : String) : Url :=
  if u.query.any (fun p => p.1 == k) then
    ⟨u.segments, u.query.map (fun p => if p.1 == k then (k, v) else p)⟩
  else
    ⟨u.segments, u.query ++ [(k, v)]⟩

/-- A Python value of the annotated argument type `int | str`. -/
inductive PyVal where
  | int (n : Int)
  | str (s : String)
deriving Repr, DecidableEq

/-- Python's `str()` coercion applied to an `int | str` value (the
`org_id = str(org_id)` and `field_id = str(field_id)` lines). -/
def pyStr : PyVal → String
  | .int n => toString n
  | .str s => s

/-- The member values of the `RecordStatuses` enumeration
(fields.py lines 15-18). -/
def RecordStatuses.values : List String :=
  ["ALL", "ACTIVE", "ARCHIVED"]

/-- Modelled from the spec: `RecordStatuses` derives from
`johndeere.enum.ExtendableStrEnum`, whose module `johndeere/enum.py` is not
among the sources here.  Per the spec it is "a mutable set-of-strings
registry checked by membership test" that callers may extend at runtime, so
the membership test `record_filter in RecordStatuses` is membership in the
declared base values or in the runtime-registered extension values `ext`. -/
def RecordStatuses.mem (ext : List String) (v : String) : Bool :=
  (RecordStatuses.values ++ ext).contains v

/-- The Python exceptions that can surface from these calls: the local
`ValueError`, and the HTTP client collaborator's status and transport
errors. -/
inductive PyError where
  | valueError (msg : String)
  | httpStatusError (status : Nat)
  | transportError (msg : String)
deriving Repr, DecidableEq

/-- Modelled from the spec: the HTTP client collaborator's response object,
a status code plus an opaque JSON body; `.json()` returns the decoded body
passed through unchanged, which we keep opaque as the raw body. -/
structure HttpResponse where
  status : Nat
  body : String
deriving Repr, DecidableEq

/-- Modelled from the spec: `response.raise_for_status()` of the HTTP client
collaborator "fails on non-2xx": it raises an HTTP status error unless the
status is in the 2xx range. -/
def raise_for_status (r : HttpResponse) : Except PyError Unit :=
  if 200 ≤ r.status ∧ r.status < 300 then .ok ()
  else .error (.httpStatusError r.status)

/-- The injected HTTP client collaborator `self.private`: a GET is a
function from the request URL to either a transport-level error or a
response. -/
def HttpClient : Type :=
  Url → Except PyError HttpResponse

/-- The URL-building and validation part of `FieldsMixin.get_fields`
(fields.py lines 59-79): coerce `org_id` to a string, build the endpoint
path `BASE_URL / "organizations" / org_id / "fields"`, merge each present
optional filter under its canonical query key, check `record_filter`
against the (possibly extended) `RecordStatuses` - raising `ValueError`
with a message naming the offending value when the check fails, before any
request is made - and finally merge the fixed embed set.  `ext` is the list
of runtime-registered `RecordStatuses` extension values. -/
def get_fields_url (ext : List String) (BASE_URL : Url) (org_id : PyVal)
    (field_name farm_name client_name : Option String)
    (record_filter : String) : Except PyError Url :=
  let org_id := pyStr org_id
  let url := ((BASE_URL.div "organizations").div org_id).div "fields"
  let url := match field_name with
    | some v => url.mod "fieldName" v
    | none => url
  let url := match farm_name with
    | some v => url.mod "farmName" v
    | none => url
  let url := match client_name with
    | some v => url.mod "clientName" v
    | none => url
  if RecordStatuses.mem ext record_filter then
    .ok ((url.mod "recordFilter" record_filter).mod
      "embed" "clients,farms,boundaries")
  else
    .error (.valueError ("Invalid record status: " ++ record_filter))

/-- `FieldsMixin.get_fields` (fields.py lines 24-85).  `ext` is the list of
runtime-registered `RecordStatuses` extension values and `client` the
injected HTTP client collaborator `self.private`.  The result pairs the
call's outcome (the response's JSON body, or the raised error) with the
list of outbound GET requests the call issued.  The `embed` parameter is
accepted, as in the source, where it is declared but never read. -/
def get_fields (ext : List String) (client : HttpClient)
    (BASE_URL : Url) (org_id : PyVal)
    (field_name farm_name client_name : Option String)
    (record_filter : String) (embed : Option String) :
    Except PyError String × List Url :=
  match get_fields_url ext BASE_URL org_id
      field_name farm_name client_name record_filter with
  | .error e => (.error e, [])
  | .ok url =>
    match client url with
    | .error e => (.error e, [url])
    | .ok response =>
      match raise_for_status response with
      | .error e => (.error e, [url])
      | .ok _ => (.ok response.body, [url])

/-- The URL built by `FieldsMixin.get_field` (fields.py line 109):
`BASE_URL / "organizations" / str(org_id) / "fields" / str(field_id)`. -/
def get_field_url (BASE_URL : Url) (org_id field_id : PyVal) : Url :=
  (((BASE_URL.div "organizations").div (pyStr org_id)).div
    "fields").div (pyStr field_id)

/-- `FieldsMixin.get_field` (fields.py lines 87-115): build the single-field
URL, GET it, raise on a non-2xx status, return the JSON body.  The result
pairs the call's outcome with the list of outbound GET requests issued. -/
def get_field (client : HttpClient) (BASE_URL : Url)
    (org_id field_id : PyVal) :
    Except PyError String × List Url :=
  match client (get_field_url BASE_URL org_id field_id) with
  | .error e => (.error e, [get_field_url BASE_URL org_id field_id])
  | .ok response =>
    match raise_for_status response with
    | .error e => (.error e, [get_field_url BASE_URL org_id field_id])
    | .ok _ => (.ok response.body, [get_field_url BASE_URL org_id field_id])

/-- The query pairs contributed by one optional filter argument: one pair
under the canonical key when the argument is present, nothing when it is
absent. -/
def optQuery (k : String) : Option String → List (String × String)
  | some v => [(k, v)]
  | none => []

/-- Query merge for an optional argument: merge when present, no-op when
absent (the shape of the three `if ... is not None` blocks). -/
def Url.optMod (u : Url) (k : String) : Option String → Url
  | some v => Url.mod u k v
  | none => u

theorem Url.mod_segments (u : Url) (k v : String) :
    (Url.mod u k v).segments = u.segments := by
  unfold Url.mod
  split <;> rfl

theorem Url.optMod_segments (u : Url) (k : String) (o : Option String) :
    (Url.optMod u k o).segments = u.segments := by
  cases o <;> simp [Url.optMod, Url.mod_segments]

theorem Url.mem_mod_self (u : Url) (k v : String) :
    (k, v) ∈ (Url.mod u k v).query := by
  unfold Url.mod
  split
  · next h =>
    rcases List.any_eq_true.mp h with ⟨p, hp, hk⟩
    exact List.mem_map.mpr ⟨p, hp, by simp [hk]⟩
  · simp

theorem Url.mem_mod_of_ne (u : Url) (k v : String) (p : String × String)
    (hp : p ∈ u.query) (hne : p.1 ≠ k) : p ∈ (Url.mod u k v).query := by
  unfold Url.mod
  split
  · refine List.mem_map.mpr ⟨p, hp, ?_⟩
    simp [hne]
  · simp [hp]

/-- With a valid record filter, `get_fields_url` succeeds and the built URL
has the normal form: path append of the three fixed segments, optional
merges for the three name filters, then the record filter and the fixed
embed merges. -/
theorem get_fields_url_eq (ext : List String) (BASE_URL : Url)
    (org_id : PyVal) (fn fm cn : Option String) (rf : String)
    (h : RecordStatuses.mem ext rf = true) :
    get_fields_url ext BASE_URL org_id fn fm cn rf =
      .ok ((((((((BASE_URL.div "organizations").div
        (pyStr org_id)).div "fields").optMod "fieldName" fn).optMod
        "farmName" fm).optMod "clientName" cn).mod "recordFilter" rf).mod
        "embed" "clients,farms,boundaries") := by
  unfold get_fields_url
  rcases fn with _ | v1 <;> rcases fm with _ | v2 <;> rcases cn with _ | v3 <;>
    simp [h, Url.optMod]

/-- With an invalid record filter, `get_fields_url` raises the
`ValueError` whose message names the offending value. -/
theorem get_fields_url_invalid (ext : List String) (BASE_URL : Url)
    (org_id : PyVal) (fn fm cn : Option String) (rf : String)
    (h : RecordStatuses.mem ext rf = false) :
    get_fields_url ext BASE_URL org_id fn fm cn rf =
      .error (.valueError ("Invalid record status: " ++ rf)) := by
  unfold get_fields_url
  simp [h]

/-- Whenever `get_fields_url` succeeds, `get_fields` issues exactly the GET
request for that URL, whatever the client then does. -/
theorem get_fields_trace (ext : List String) (client : HttpClient)
    (BASE_URL : Url) (org_id : PyVal) (fn fm cn : Option String)
    (rf : String) (embed : Option String) (url : Url)
    (h : get_fields_url ext BASE_URL org_id fn fm cn rf = .ok url) :
    (get_fields ext client BASE_URL org_id fn fm cn rf embed).2 = [url] := by
  unfold get_fields
  rw [h]
  rcases hc : client url with e | r <;> simp [hc]
  rcases hs : raise_for_status r with e2 | u <;> simp [hs]

/-- `get_field` always issues exactly the GET request for its built URL. -/
theorem get_field_trace (client : HttpClient) (BASE_URL : Url)
    (org_id fid : PyVal) :
    (get_field client BASE_URL org_id fid).2 =
      [get_field_url BASE_URL org_id fid] := by
  unfold get_field
  rcases hc : client (get_field_url BASE_URL org_id fid) with e | r <;>
    simp [hc]
  rcases hs : raise_for_status r with e2 | u <;> simp [hs]

theorem get_field_url_segments (BASE_URL : Url) (org_id fid : PyVal) :
    (get_field_url BASE_URL org_id fid).segments =
      BASE_URL.segments ++ ["organizations", pyStr org_id, "fields",
        pyStr fid] := by
  simp [get_field_url, Url.div]

theorem get_fields_url_segments (ext : List String) (BASE_URL : Url)
    (org_id : PyVal) (fn fm cn : Option String) (rf : String) (url : Url)
    (h : get_fields_url ext BASE_URL org_id fn fm cn rf = .ok url) :
    url.segments =
      BASE_URL.segments ++ ["organizations", pyStr org_id, "fields"] := by
  cases hm : RecordStatuses.mem ext rf with
  | false =>
    rw [get_fields_url_invalid ext BASE_URL org_id fn fm cn rf hm] at h
    cases h
  | true =>
    rw [get_fields_url_eq ext BASE_URL org_id fn fm cn rf hm] at h
    cases h
    simp [Url.mod_segments, Url.optMod_segments, Url.div]

/-- C1: for every call to `get_fields` whose `record_filter` argument is not
a member of the (possibly runtime-extended) `RecordStatuses` set, the call
fails with a `ValueError` whose message names the offending
`record_filter` value, and no outbound HTTP request is issued. -/
theorem C1_get_fields_invalid_record_filter (ext : List String)
    (client : HttpClient) (BASE_URL : Url) (org_id : PyVal)
    (field_name farm_name client_name : Option String)
    (record_filter : String) (embed : Option String)
    (h : RecordStatuses.mem ext record_filter = false) :
    get_fields ext client BASE_URL org_id field_name farm_name client_name
        record_filter embed =
      (.error (.valueError ("Invalid record status: " ++ record_filter)),
        []) := by
  unfold get_fields
  rw [get_fields_url_invalid ext BASE_URL org_id field_name farm_name
    client_name record_filter h]

/-- Witness for C1: the call with `record_filter = "BOGUS"` and no
registered extensions raises the `ValueError` naming "BOGUS" and issues no
request. -/
theorem C1_witness :
    RecordStatuses.mem [] "BOGUS" = false ∧
    get_fields [] (fun _ => .ok ⟨200, "ignored"⟩) ⟨["base"], []⟩ (.int 1)
        none none none "BOGUS" none =
      (.error (.valueError ("Invalid record status: " ++ "BOGUS")), []) :=
  ⟨by decide,
    C1_get_fields_invalid_record_filter [] (fun _ => .ok ⟨200, "ignored"⟩)
      ⟨["base"], []⟩ (.int 1) none none none "BOGUS" none (by decide)⟩

/-- C2: for every `record_filter` value that is a member of the
`RecordStatuses` set (the base values plus any runtime-registered
extensions), `get_fields` issues a GET request whose URL query contains the
pair recordFilter equals that value. -/
theorem C2_get_fields_valid_record_filter_in_query (ext : List String)
    (client : HttpClient) (BASE_URL : Url) (org_id : PyVal)
    (field_name farm_name client_name : Option String)
    (record_filter : String) (embed : Option String)
    (h : RecordStatuses.mem ext record_filter = true) :
    ∃ url, (get_fields ext client BASE_URL org_id field_name farm_name
        client_name record_filter embed).2 = [url] ∧
      ("recordFilter", record_filter) ∈ url.query := by
  refine ⟨_, get_fields_trace ext client BASE_URL org_id field_name
    farm_name client_name record_filter embed _
    (get_fields_url_eq ext BASE_URL org_id field_name farm_name client_name
      record_filter h), ?_⟩
  exact Url.mem_mod_of_ne _ "embed" "clients,farms,boundaries"
    ("recordFilter", record_filter)
    (Url.mem_mod_self _ "recordFilter" record_filter)
    (show ("recordFilter" : String) ≠ "embed" from by decide)

/-- Witness for C2: the runtime-registered extension value "CUSTOM" passes
validation and appears in the issued URL's query. -/
theorem C2_witness :
    RecordStatuses.mem ["CUSTOM"] "CUSTOM" = true ∧
    ∃ url, (get_fields ["CUSTOM"] (fun _ => .ok ⟨200, "ignored"⟩)
        ⟨["base"], []⟩ (.int 1) none none none "CUSTOM" none).2 = [url] ∧
      ("recordFilter", "CUSTOM") ∈ url.query :=
  ⟨by decide,
    C2_get_fields_valid_record_filter_in_query ["CUSTOM"]
      (fun _ => .ok ⟨200, "ignored"⟩) ⟨["base"], []⟩ (.int 1)
      none none none "CUSTOM" none (by decide)⟩

/-- C3: for every call to `get_fields` that passes validation (in
particular every successful call), regardless of which optional arguments
are supplied, the URL of the issued GET request contains the query
parameter embed with the fixed value "clients,farms,boundaries". -/
theorem C3_get_fields_always_embeds (ext : List String)
    (client : HttpClient) (BASE_URL : Url) (org_id : PyVal)
    (field_name farm_name client_name : Option String)
    (record_filter : String) (embed : Option String)
    (h : RecordStatuses.mem ext record_filter = true) :
    ∃ url, (get_fields ext client BASE_URL org_id field_name farm_name
        client_name record_filter embed).2 = [url] ∧
      ("embed", "clients,farms,boundaries") ∈ url.query := by
  refine ⟨_, get_fields_trace ext client BASE_URL org_id field_name
    farm_name client_name record_filter embed _
    (get_fields_url_eq ext BASE_URL org_id field_name farm_name client_name
      record_filter h), ?_⟩
  exact Url.mem_mod_self _ "embed" "clients,farms,boundaries"

/-- Witness for C3: a call with all three optional name filters supplied
still carries the fixed embed pair in its issued URL's query. -/
theorem C3_witness :
    RecordStatuses.mem [] "ACTIVE" = true ∧
    ∃ url, (get_fields [] (fun _ => .ok ⟨200, "ignored"⟩) ⟨["base"], []⟩
        (.int 1) (some "North40") (some "F") (some "C") "ACTIVE"
        (some "nothing")).2 = [url] ∧
      ("embed", "clients,farms,boundaries") ∈ url.query :=
  ⟨by decide,
    C3_get_fields_always_embeds [] (fun _ => .ok ⟨200, "ignored"⟩)
      ⟨["base"], []⟩ (.int 1) (some "North40") (some "F") (some "C")
      "ACTIVE" (some "nothing") (by decide)⟩

/-- C4: the `embed` parameter of `get_fields` is dead: two calls whose
arguments differ only in `embed` have identical outcomes and issue
identical requests (the source never reads the parameter and always merges
the fixed literal embed set). -/
theorem C4_embed_parameter_dead (ext : List String) (client : HttpClient)
    (BASE_URL : Url) (org_id : PyVal)
    (field_name farm_name client_name : Option String)
    (record_filter : String) (embed1 embed2 : Option String) :
    get_fields ext client BASE_URL org_id field_name farm_name client_name
        record_filter embed1 =
      get_fields ext client BASE_URL org_id field_name farm_name client_name
        record_filter embed2 := rfl

/-- C5: both `get_fields` and `get_field` normalize `org_id` (string or
integer) to its string form `pyStr org_id` and use it as the path segment
after "organizations"; in particular the integer 123 yields the literal
segment "123". -/
theorem C5_org_id_normalized (ext : List String) (BASE_URL : Url)
    (org_id fid : PyVal) (field_name farm_name client_name : Option String)
    (record_filter : String) (url : Url)
    (h : get_fields_url ext BASE_URL org_id field_name farm_name client_name
      record_filter = .ok url) :
    url.segments =
      BASE_URL.segments ++ ["organizations", pyStr org_id, "fields"] ∧
    (get_field_url BASE_URL org_id fid).segments =
      BASE_URL.segments ++ ["organizations", pyStr org_id, "fields",
        pyStr fid] ∧
    pyStr (.int 123) = "123" :=
  ⟨get_fields_url_segments ext BASE_URL org_id field_name farm_name
      client_name record_filter url h,
    get_field_url_segments BASE_URL org_id fid, by decide⟩

/-- Witness for C5: with `org_id = 123` (integer) both built URLs carry the
literal path segment "123". -/
theorem C5_witness :
    get_fields_url [] ⟨["base"], []⟩ (.int 123) none none none "ACTIVE" =
      .ok ⟨["base", "organizations", "123", "fields"],
        [("recordFilter", "ACTIVE"),
          ("embed", "clients,farms,boundaries")]⟩ ∧
    (⟨["base", "organizations", "123", "fields"],
        [("recordFilter", "ACTIVE"),
          ("embed", "clients,farms,boundaries")]⟩ : Url).segments =
      (⟨["base"], []⟩ : Url).segments ++
        ["organizations", pyStr (.int 123), "fields"] ∧
    (get_field_url ⟨["base"], []⟩ (.int 123) (.str "abc-guid")).segments =
      (⟨["base"], []⟩ : Url).segments ++
        ["organizations", pyStr (.int 123), "fields",
          pyStr (.str "abc-guid")] ∧
    pyStr (.int 123) = "123" := by
  have h : get_fields_url [] ⟨["base"], []⟩ (.int 123) none none none
      "ACTIVE" =
      .ok ⟨["base", "organizations", "123", "fields"],
        [("recordFilter", "ACTIVE"),
          ("embed", "clients,farms,boundaries")]⟩ := by rfl
  have hc := C5_org_id_normalized [] ⟨["base"], []⟩ (.int 123)
    (.str "abc-guid") none none none "ACTIVE" _ h
  exact ⟨h, hc.1, hc.2.1, hc.2.2⟩

/-- C6: `get_field` issues one GET to the URL whose path is
base/organizations/org_id/fields/field_id with no query string (when the
base URL carries none), performs no validation beyond the `pyStr` string
coercion of its arguments, and on a 2xx response returns the response's
JSON body. -/
theorem C6_get_field_contract (client : HttpClient) (BASE_URL : Url)
    (org_id fid : PyVal) (hq : BASE_URL.query = []) :
    (get_field client BASE_URL org_id fid).2 =
      [get_field_url BASE_URL org_id fid] ∧
    (get_field_url BASE_URL org_id fid).segments =
      BASE_URL.segments ++ ["organizations", pyStr org_id, "fields",
        pyStr fid] ∧
    (get_field_url BASE_URL org_id fid).query = [] ∧
    (∀ r, client (get_field_url BASE_URL org_id fid) = .ok r →
      200 ≤ r.status → r.status < 300 →
      (get_field client BASE_URL org_id fid).1 = .ok r.body) := by
  refine ⟨get_field_trace client BASE_URL org_id fid,
    get_field_url_segments BASE_URL org_id fid, ?_, ?_⟩
  · simp [get_field_url, Url.div, hq]
  · intro r hr h1 h2
    unfold get_field
    rw [hr]
    simp [raise_for_status, h1, h2]

/-- Witness for C6: a concrete `get_field` call with orgId 1 and fieldId
"abc-guid" issues one query-free GET and returns the 2xx response body. -/
theorem C6_witness :
    (⟨["base"], []⟩ : Url).query = [] ∧
    (get_field (fun _ => .ok ⟨200, "payload"⟩) ⟨["base"], []⟩ (.int 1)
        (.str "abc-guid")).2 =
      [get_field_url ⟨["base"], []⟩ (.int 1) (.str "abc-guid")] ∧
    (get_field_url ⟨["base"], []⟩ (.int 1) (.str "abc-guid")).query = [] ∧
    (get_field (fun _ => .ok ⟨200, "payload"⟩) ⟨["base"], []⟩ (.int 1)
        (.str "abc-guid")).1 = .ok "payload" := by
  have hc := C6_get_field_contract (fun _ => .ok ⟨200, "payload"⟩)
    ⟨["base"], []⟩ (.int 1) (.str "abc-guid") rfl
  exact ⟨rfl, hc.1, hc.2.2.1,
    hc.2.2.2 ⟨200, "payload"⟩ rfl (by decide) (by decide)⟩

/-- C7: when the base URL carries no query, the query of the URL built by
`get_fields` is exactly the pairs of the present optional filters under
their canonical keys, in order, followed by the record filter and the fixed
embed pair - so each filter appears iff its argument is present, and the
URL is a deterministic function of the arguments. -/
theorem C7_get_fields_optional_filters (ext : List String) (BASE_URL : Url)
    (org_id : PyVal) (field_name farm_name client_name : Option String)
    (record_filter : String) (url : Url) (hq : BASE_URL.query = [])
    (h : get_fields_url ext BASE_URL org_id field_name farm_name client_name
      record_filter = .ok url) :
    url.query =
      optQuery "fieldName" field_name ++ optQuery "farmName" farm_name ++
      optQuery "clientName" client_name ++
      [("recordFilter", record_filter),
        ("embed", "clients,farms,boundaries")] := by
  cases hm : RecordStatuses.mem ext record_filter with
  | false =>
    rw [get_fields_url_invalid ext BASE_URL org_id field_name farm_name
      client_name record_filter hm] at h
    cases h
  | true =>
    rw [get_fields_url_eq ext BASE_URL org_id field_name farm_name
      client_name record_filter hm] at h
    cases h
    rcases field_name with _ | v1 <;> rcases farm_name with _ | v2 <;>
      rcases client_name with _ | v3 <;>
      simp [Url.optMod, Url.mod, Url.div, optQuery, hq]

/-- Witness for C7: with fieldName and clientName present and farmName
absent, the built query is exactly those two pairs plus the record filter
and embed pairs. -/
theorem C7_witness :
    (⟨["base"], []⟩ : Url).query = [] ∧
    get_fields_url [] ⟨["base"], []⟩ (.int 1) (some "North40") none
      (some "C") "ALL" =
      .ok ⟨["base", "organizations", "1", "fields"],
        [("fieldName", "North40"), ("clientName", "C"),
          ("recordFilter", "ALL"),
          ("embed", "clients,farms,boundaries")]⟩ ∧
    (⟨["base", "organizations", "1", "fields"],
        [("fieldName", "North40"), ("clientName", "C"),
          ("recordFilter", "ALL"),
          ("embed", "clients,farms,boundaries")]⟩ : Url).query =
      optQuery "fieldName" (some "North40") ++ optQuery "farmName" none ++
      optQuery "clientName" (some "C") ++
      [("recordFilter", "ALL"), ("embed", "clients,farms,boundaries")] := by
  have h : get_fields_url [] ⟨["base"], []⟩ (.int 1) (some "North40") none
      (some "C") "ALL" =
      .ok ⟨["base", "organizations", "1", "fields"],
        [("fieldName", "North40"), ("clientName", "C"),
          ("recordFilter", "ALL"),
          ("embed", "clients,farms,boundaries")]⟩ := by rfl
  exact ⟨rfl, h, C7_get_fields_optional_filters [] ⟨["base"], []⟩ (.int 1)
    (some "North40") none (some "C") "ALL" _ rfl h⟩

/-- C8: when the HTTP client collaborator fails with a transport error or
returns a non-2xx response, both `get_fields` and `get_field` fail with the
client's error propagated unchanged (no translation, no retry) and return
no value. -/
theorem C8_http_errors_propagated (ext : List String) (client : HttpClient)
    (BASE_URL : Url) (org_id fid : PyVal)
    (field_name farm_name client_name : Option String)
    (record_filter : String) (embed : Option String) (url : Url)
    (e : PyError) (r : HttpResponse)
    (hu : get_fields_url ext BASE_URL org_id field_name farm_name
      client_name record_filter = .ok url) :
    (client url = .error e →
      (get_fields ext client BASE_URL org_id field_name farm_name
        client_name record_filter embed).1 = .error e) ∧
    (client url = .ok r → r.status < 200 ∨ 300 ≤ r.status →
      (get_fields ext client BASE_URL org_id field_name farm_name
        client_name record_filter embed).1 =
        .error (.httpStatusError r.status)) ∧
    (client (get_field_url BASE_URL org_id fid) = .error e →
      (get_field client BASE_URL org_id fid).1 = .error e) ∧
    (client (get_field_url BASE_URL org_id fid) = .ok r →
      r.status < 200 ∨ 300 ≤ r.status →
      (get_field client BASE_URL org_id fid).1 =
        .error (.httpStatusError r.status)) := by
  refine ⟨?_, ?_, ?_, ?_⟩
  · intro hc
    unfold get_fields
    rw [hu]
    simp [hc]
  · intro hc hs
    have hns : ¬(200 ≤ r.status ∧ r.status < 300) := by omega
    unfold get_fields
    rw [hu]
    simp [hc, raise_for_status, hns]
  · intro hc
    unfold get_field
    rw [hc]
  · intro hc hs
    have hns : ¬(200 ≤ r.status ∧ r.status < 300) := by omega
    unfold get_field
    rw [hc]
    simp [raise_for_status, hns]

/-- Witness for C8: a client that fails with a transport error makes both
calls fail with that same error. -/
theorem C8_witness :
    get_fields_url [] ⟨["base"], []⟩ (.int 1) none none none "ACTIVE" =
      .ok ⟨["base", "organizations", "1", "fields"],
        [("recordFilter", "ACTIVE"),
          ("embed", "clients,farms,boundaries")]⟩ ∧
    (get_fields [] (fun _ => .error (.transportError "down"))
        ⟨["base"], []⟩ (.int 1) none none none "ACTIVE" none).1 =
      .error (.transportError "down") ∧
    (get_field (fun _ => .error (.transportError "down")) ⟨["base"], []⟩
        (.int 1) (.str "g")).1 = .error (.transportError "down") := by
  have hu : get_fields_url [] ⟨["base"], []⟩ (.int 1) none none none
      "ACTIVE" =
      .ok ⟨["base", "organizations", "1", "fields"],
        [("recordFilter", "ACTIVE"),
          ("embed", "clients,farms,boundaries")]⟩ := by rfl
  have hc := C8_http_errors_propagated []
    (fun _ => .error (.transportError "down")) ⟨["base"], []⟩ (.int 1)
    (.str "g") none none none "ACTIVE" none _ (.transportError "down")
    ⟨500, ""⟩ hu
  exact ⟨hu, hc.1 rfl, hc.2.2.1 rfl⟩

/-- C9: `get_fields` never issues more than one outbound GET request, and
every call that passes record-filter validation issues exactly one. -/
theorem C9_exactly_one_request (ext : List String) (client : HttpClient)
    (BASE_URL : Url) (org_id : PyVal)
    (field_name farm_name client_name : Option String)
    (record_filter : String) (embed : Option String) :
    (get_fields ext client BASE_URL org_id field_name farm_name client_name
      record_filter embed).2.length ≤ 1 ∧
    (RecordStatuses.mem ext record_filter = true →
      (get_fields ext client BASE_URL org_id field_name farm_name
        client_name record_filter embed).2.length = 1) := by
  constructor
  · cases hm : RecordStatuses.mem ext record_filter with
    | false =>
      unfold get_fields
      rw [get_fields_url_invalid ext BASE_URL org_id field_name farm_name
        client_name record_filter hm]
      simp
    | true =>
      rw [get_fields_trace ext client BASE_URL org_id field_name farm_name
        client_name record_filter embed _
        (get_fields_url_eq ext BASE_URL org_id field_name farm_name
          client_name record_filter hm)]
      simp
  · intro hm
    rw [get_fields_trace ext client BASE_URL org_id field_name farm_name
      client_name record_filter embed _
      (get_fields_url_eq ext BASE_URL org_id field_name farm_name
        client_name record_filter hm)]
    rfl

/-- Witness for C9: a concrete validated call issues exactly one request. -/
theorem C9_witness :
    (get_fields [] (fun _ => .ok ⟨200, "b"⟩) ⟨["base"], []⟩ (.int 1)
      none none none "ACTIVE" none).2.length ≤ 1 ∧
    (get_fields [] (fun _ => .ok ⟨200, "b"⟩) ⟨["base"], []⟩ (.int 1)
      none none none "ACTIVE" none).2.length = 1 := by
  have hc := C9_exactly_one_request [] (fun _ => .ok ⟨200, "b"⟩)
    ⟨["base"], []⟩ (.int 1) none none none "ACTIVE" none
  exact ⟨hc.1, hc.2 (by decide)⟩

/-- C10: `get_field` coerces `field_id` with `pyStr` (Python's `str()`)
before using it as the final path segment, so it accepts any `int | str`
value; on string inputs the coercion is the identity, so string field IDs
appear verbatim in the URL path. -/
theorem C10_field_id_coerced (client : HttpClient) (BASE_URL : Url)
    (org_id fid : PyVal) (s : String) :
    (get_field client BASE_URL org_id fid).2 =
      [get_field_url BASE_URL org_id fid] ∧
    (get_field_url BASE_URL org_id fid).segments =
      BASE_URL.segments ++ ["organizations", pyStr org_id, "fields",
        pyStr fid] ∧
    pyStr (.str s) = s ∧
    (get_field_url BASE_URL org_id (.str s)).segments =
      BASE_URL.segments ++ ["organizations", pyStr org_id, "fields", s] :=
  ⟨get_field_trace client BASE_URL org_id fid,
    get_field_url_segments BASE_URL org_id fid, rfl,
    get_field_url_segments BASE_URL org_id (.str s)⟩

end JohnDeere
